import Mathlib

/-!
Verification of the OCS provisioning MCP server against its specification.

The development shallowly embeds the Python sources:
* `src/client.py` — the HTTP client wrapper (`OCSClient.request`, `OCSAPIError`);
* `src/tools/subscriber.py` — `lookup_subscriber`, `create_subscriber`,
  `delete_subscriber`, `change_subscriber_state`;
* `src/tools/subscription.py` — `delete_subscription`;
* `src/tools/balance.py` — `delete_balances`;
* `src/tools/offers.py` — the static offer catalog and `get_offer_by_id`.

JSON values are modelled by the inductive `JVal`; Python `None` is `JVal.jnull`
when it occurs as a JSON value, and `Option` when it marks absence.  The network
is modelled by a `TransportResult` input: the wrapper's behaviour is a pure
function of the transport outcome, the caller-supplied transaction id and the
fresh UUID the process would draw.
-/

/-- A JSON value, as produced by `response.json()` in the Python sources. -/
inductive JVal where
  | jnull
  | jbool (b : Bool)
  | jnum (n : Int)
  | jstr (s : String)
  | jarr (elems : List JVal)
  | jobj (fields : List (String × JVal))
  deriving Repr

/-- Python `dict.get(key)` on a parsed JSON object: the value stored at the
first matching key, `none` when the key is absent. -/
def dictGet (fields : List (String × JVal)) (k : String) : Option JVal :=
  match fields with
  | [] => none
  | (k', v) :: rest => if k' = k then some v else dictGet rest k

/-- Python `dict.get(key)` seen through an `Optional` annotation: a stored JSON
`null` and an absent key both yield Python `None`. -/
def pyOptGet (fields : List (String × JVal)) (k : String) : Option JVal :=
  match dictGet fields k with
  | some .jnull => none
  | v => v

/-- Python `dict[key] = value` on a string-valued dict, preserving the position
of an existing key (models `headers["X-Transaction-ID"] = transaction_id` in
`src/client.py`). -/
def dictSet (d : List (String × String)) (k v : String) : List (String × String) :=
  match d with
  | [] => [(k, v)]
  | (k', v') :: rest => if k' = k then (k, v) :: rest else (k', v') :: dictSet rest k v

/-- An upstream HTTP response as observed by `src/client.py`.  `body` is the
result of `response.json()` (`none` when parsing raises), `json_error` is the
`str()` of that parse exception, `text` is `response.text` and `reason_phrase`
is `response.reason_phrase`. -/
structure HttpResponse where
  status_code : Nat
  body : Option JVal
  json_error : String
  text : String
  reason_phrase : String

/-- Outcome of the underlying `httpx` transport call in `OCSClient.request`:
either a response, an `httpx.RequestError` (DNS, connection refused, timeout),
or any other exception raised by the transport. -/
inductive TransportResult where
  | ok (r : HttpResponse)
  | requestError (cause : String)
  | otherError (cause : String)

/-- The structured error `OCSAPIError` of `src/client.py`. -/
structure OCSAPIError where
  status_code : Nat
  message : JVal
  details : Option JVal

/-- What one call of `OCSClient.request` does: the headers actually sent on the
outgoing request, and the returned value or raised `OCSAPIError`. -/
structure RequestTrace where
  sentHeaders : List (String × String)
  result : Except OCSAPIError (Option JVal)

/-- Shallow embedding of `OCSClient.request` (`src/client.py`, lines 31-80).
`freshUuid` stands for the `str(uuid.uuid4())` the process would draw, `headers`
for the caller-supplied `headers` kwarg, and `outcome` for the transport call.
A JSON error body that is not an object makes `error_body.get` raise, which the
inner `except Exception` turns into the raw-text fallback, exactly as a JSON
parse failure does. -/
def OCSClient.request (transaction_id : Option String) (freshUuid : String)
    (headers : List (String × String)) (outcome : TransportResult) : RequestTrace :=
  let tx : String :=
    match transaction_id with
    | none => freshUuid
    | some t => if t = "" then freshUuid else t
  let sent := dictSet headers "X-Transaction-ID" tx
  let result : Except OCSAPIError (Option JVal) :=
    match outcome with
    | .requestError cause =>
      .error ⟨503, .jstr ("Service Unavailable: " ++ cause), none⟩
    | .otherError cause =>
      .error ⟨500, .jstr ("Internal Client Error: " ++ cause), none⟩
    | .ok r =>
      if 400 ≤ r.status_code then
        match r.body with
        | some (.jobj fields) =>
          .error ⟨r.status_code, (dictGet fields "message").getD (.jstr r.reason_phrase),
                  pyOptGet fields "details"⟩
        | _ =>
          .error ⟨r.status_code, .jstr (if r.text = "" then r.reason_phrase else r.text), none⟩
      else if r.status_code = 204 then
        .ok none
      else
        match r.body with
        | some data => .ok (some data)
        | none => .error ⟨500, .jstr ("Internal Client Error: " ++ r.json_error), none⟩
  ⟨sent, result⟩

/-! ## Tool layer: subscriber, subscription and balance tools -/

/-- Transaction-id handling shared by the tool functions in
`src/tools/subscriber.py` (e.g. `lookup_subscriber`, lines 49-50): a fresh UUID
is substituted only when the argument is `None`; any supplied string, the empty
string included, is passed through to the client wrapper. -/
def toolTransactionId (transaction_id : Option String) (freshUuid : String) : String :=
  match transaction_id with
  | none => freshUuid
  | some t => t

/-- The `max_attempts` cap of `create_subscriber` (`src/tools/subscriber.py`,
line 123). -/
def max_attempts : Nat := 10

/-- Python `f"{n:07d}"`: decimal rendering left-padded with zeros to width 7. -/
def format07d (n : Nat) : String :=
  let s := toString n
  String.mk (List.replicate (7 - s.length) '0') ++ s

/-- The candidate MSISDN built from one `random.randint(1000000, 9999999)` draw
(`src/tools/subscriber.py`, line 129): `f"43660{random_number:07d}"`. -/
def candidateMsisdn (random_number : Nat) : String :=
  "43660" ++ format07d random_number

/-- The acceptance test of the uniqueness loop (`src/tools/subscriber.py`,
line 140): `lookup_result.get("ResultCode") == "Entity not found"`, where
`lookup_result` is the parsed JSON object of the lookup response. -/
def msisdnAccepted (lookup_result : List (String × JVal)) : Bool :=
  match dictGet lookup_result "ResultCode" with
  | some (.jstr s) => s = "Entity not found"
  | _ => false

/-- One run of the `for attempt in range(max_attempts)` loop of
`create_subscriber` starting at `attempt` with `fuel` iterations left.
`randoms i` is the `random.randint` draw of attempt `i` and `lookups i` the
parsed object returned by the lookup endpoint for attempt `i`.  Returns the
accepted MSISDN (or `none`) together with the number of lookup calls made. -/
def msisdnSearch (randoms : Nat → Nat) (lookups : Nat → List (String × JVal)) :
    Nat → Nat → Option String × Nat
  | _, 0 => (none, 0)
  | attempt, fuel + 1 =>
    if msisdnAccepted (lookups attempt) then
      (some (candidateMsisdn (randoms attempt)), 1)
    else
      let rest := msisdnSearch randoms lookups (attempt + 1) fuel
      (rest.1, rest.2 + 1)

/-- Observable outcome of `create_subscriber`'s MSISDN-uniqueness phase
(`src/tools/subscriber.py`, lines 122-148): either the function raises without
ever issuing the creation `POST /subscribers`, or it proceeds to the creation
request with the accepted MSISDN; each constructor records how many lookup
calls were made. -/
inductive CreateSubscriberOutcome where
  | failure (lookupCalls : Nat)
  | creation (msisdn : String) (lookupCalls : Nat)
  deriving Repr, DecidableEq

/-- The MSISDN-uniqueness phase of `create_subscriber`: run the loop with the
configured cap; `msisdn is None` afterwards means the `raise` on line 148 fires
and no creation request is issued. -/
def create_subscriber_run (randoms : Nat → Nat) (lookups : Nat → List (String × JVal)) :
    CreateSubscriberOutcome :=
  match msisdnSearch randoms lookups 0 max_attempts with
  | (some m, n) => .creation m n
  | (none, n) => .failure n

/-- A value returned by a tool function: either a JSON-serialisable value
(possibly Python `None`) or a Python string. -/
inductive ToolValue where
  | jsonValue (v : Option JVal)
  | strValue (s : String)
  deriving Repr

/-- Whether a tool returned a Python string. -/
def ToolValue.isString : ToolValue → Bool
  | .strValue _ => true
  | .jsonValue _ => false

/-- `delete_subscriber` (`src/tools/subscriber.py`, lines 379-386): the wrapper
result of `DELETE /subscribers/{id}` is awaited and discarded, and the literal
confirmation string is returned. -/
def delete_subscriber (subscriber_id : String) (_wrapperResult : Option JVal) : ToolValue :=
  .strValue ("Subscriber " ++ subscriber_id ++ " deleted successfully")

/-- `delete_subscription` (`src/tools/subscription.py`, lines 321-327): the
wrapper result of `DELETE /subscriptions/{id}` is returned unchanged. -/
def delete_subscription (wrapperResult : Option JVal) : ToolValue :=
  .jsonValue wrapperResult

/-- `delete_balances` (`src/tools/balance.py`, lines 34-44): the wrapper result
of `DELETE /subscriptions/{id}/balances` is returned unchanged. -/
def delete_balances (wrapperResult : Option JVal) : ToolValue :=
  .jsonValue wrapperResult

/-- The `valid_states` list of `change_subscriber_state`
(`src/tools/subscriber.py`, line 545). -/
def valid_states : List String :=
  ["ACTIVE", "SUSPENDED", "DEACTIVATED", "TERMINATED", "PRE_PROVISIONED"]

/-- What `change_subscriber_state` does after its validation step: either it
returns the inline error object without any network call, or it issues the
`PUT /subscribers/{id}/state` request through the client wrapper. -/
inductive StateChangeAction where
  | inlineError (body : List (String × JVal))
  | networkCall (method endpoint state : String)
  deriving Repr

/-- `change_subscriber_state` (`src/tools/subscriber.py`, lines 541-560): an
invalid `state` yields the inline error dict and returns before the client is
invoked; a valid one proceeds to `PUT /subscribers/{subscriber_id}/state`. -/
def change_subscriber_state (subscriber_id state : String) : StateChangeAction :=
  if state ∉ valid_states then
    .inlineError
      [("error", .jstr ("Invalid state \x27" ++ state ++ "\x27. Must be one of: "
          ++ String.intercalate ", " valid_states))]
  else
    .networkCall "PUT" ("/subscribers/" ++ subscriber_id ++ "/state") state

/-! ## Static offer catalog (`src/tools/offers.py`) -/

/-- One entry of an offer's `balances` list in the static catalog. -/
structure OfferBalance where
  type : String
  amount : Nat
  unit : String
  recurring : Bool
  cycleLength : Nat
  cycleUnit : String
  rolloverAllowed : Bool
  maxRolloverAmount : Nat
  description : String
  deriving Repr, DecidableEq

/-- One offer record of the static catalog. -/
structure Offer where
  offerId : String
  offerName : String
  description : String
  price : ℚ
  type : String
  recurring : Bool
  paid : Bool
  groupOffer : Bool
  maxRecurringCycles : Option Nat
  cycleLength : Nat
  cycleUnit : String
  balances : List OfferBalance
  deriving Repr, DecidableEq

/-- Catalog record `"1000"` (`src/tools/offers.py`, lines 14-61). -/
def offer1000 : Offer :=
  { offerId := "1000"
  , offerName := "Basic prepaid plan"
  , description := "Basic prepaid priceplan, which covers all type of services"
  , price := 7.99
  , type := "PREPAID"
  , recurring := true
  , paid := true
  , groupOffer := false
  , maxRecurringCycles := none
  , cycleLength := 0
  , cycleUnit := "MONTH"
  , balances :=
    [ { type := "ALLOWANCE", amount := 3600, unit := "SECONDS", recurring := true
      , cycleLength := 1, cycleUnit := "MONTH", rolloverAllowed := false
      , maxRolloverAmount := 0, description := "Prepaid base balance for voice service" }
    , { type := "ALLOWANCE", amount := 1000, unit := "EVENTS", recurring := true
      , cycleLength := 1, cycleUnit := "MONTH", rolloverAllowed := false
      , maxRolloverAmount := 0, description := "Prepaid base balance for SMS and MMS service" }
    , { type := "ALLOWANCE", amount := 10737418240, unit := "BYTES", recurring := true
      , cycleLength := 1, cycleUnit := "MONTH", rolloverAllowed := false
      , maxRolloverAmount := 0, description := "Prepaid base balance for data service" } ] }

/-- Catalog record `"1001"` (`src/tools/offers.py`, lines 62-108). -/
def offer1001 : Offer :=
  { offerId := "1001"
  , offerName := "Basic postpaid plan"
  , description := "Basic postpaid priceplan, which covers all type of services"
  , price := 15.99
  , type := "POSTPAID"
  , recurring := true
  , paid := true
  , groupOffer := false
  , maxRecurringCycles := none
  , cycleLength := 0
  , cycleUnit := "MONTH"
  , balances :=
    [ { type := "ALLOWANCE", amount := 86600, unit := "SECONDS", recurring := true
      , cycleLength := 1, cycleUnit := "MONTH", rolloverAllowed := false
      , maxRolloverAmount := 0, description := "Postpaid base balance for voice service" }
    , { type := "ALLOWANCE", amount := 5000, unit := "EVENTS", recurring := true
      , cycleLength := 1, cycleUnit := "MONTH", rolloverAllowed := false
      , maxRolloverAmount := 0, description := "Postpaid base balance for SMS and MMS service" }
    , { type := "ALLOWANCE", amount := 10737418240, unit := "BYTES", recurring := true
      , cycleLength := 1, cycleUnit := "MONTH", rolloverAllowed := false
      , maxRolloverAmount := 0, description := "Postpaid base balance for data service" } ] }

/-- Catalog record `"1002"` (`src/tools/offers.py`, lines 110-136). -/
def offer1002 : Offer :=
  { offerId := "1002"
  , offerName := "Weekly data bundle 5GB"
  , description := "Prepaid weekly data bundle – 5GB"
  , price := 4.99
  , type := "PREPAID"
  , recurring := true
  , paid := true
  , groupOffer := false
  , maxRecurringCycles := none
  , cycleLength := 4
  , cycleUnit := "WEEK"
  , balances :=
    [ { type := "ALLOWANCE", amount := 5368709120, unit := "BYTES", recurring := true
      , cycleLength := 1, cycleUnit := "WEEK", rolloverAllowed := true
      , maxRolloverAmount := 5368709120, description := "Prepaid 5GB weekly balance" } ] }

/-- Catalog record `"1003"` (`src/tools/offers.py`, lines 137-162). -/
def offer1003 : Offer :=
  { offerId := "1003"
  , offerName := "Monthly data bundle 25GB"
  , description := "Prepaid monthly data bundle – 25GB"
  , price := 12.99
  , type := "PREPAID"
  , recurring := false
  , paid := true
  , groupOffer := false
  , maxRecurringCycles := none
  , cycleLength := 1
  , cycleUnit := "MONTH"
  , balances :=
    [ { type := "ALLOWANCE", amount := 26843545600, unit := "BYTES", recurring := false
      , cycleLength := 1, cycleUnit := "MONTH", rolloverAllowed := true
      , maxRolloverAmount := 0, description := "Prepaid 25GB one time monthly balance" } ] }

/-- Catalog record `"1010"` (`src/tools/offers.py`, lines 163-210). -/
def offer1010 : Offer :=
  { offerId := "1010"
  , offerName := "Premium prepaid plan"
  , description := "Premium prepaid price plan, which contains more free units for all type of services"
  , price := 9.99
  , type := "PREPAID"
  , recurring := true
  , paid := true
  , groupOffer := false
  , maxRecurringCycles := none
  , cycleLength := 0
  , cycleUnit := "MONTH"
  , balances :=
    [ { type := "ALLOWANCE", amount := 18000, unit := "SECONDS", recurring := true
      , cycleLength := 1, cycleUnit := "MONTH", rolloverAllowed := true
      , maxRolloverAmount := 7200
      , description := "5 hours prepaid balance for voice service with 2 hours rollover" }
    , { type := "ALLOWANCE", amount := 5000, unit := "EVENTS", recurring := true
      , cycleLength := 1, cycleUnit := "MONTH", rolloverAllowed := true
      , maxRolloverAmount := 2000
      , description := "5000 events prepaid balance for SMS and MMS services with 2000 events rollover" }
    , { type := "ALLOWANCE", amount := 21474836480, unit := "BYTES", recurring := true
      , cycleLength := 1, cycleUnit := "MONTH", rolloverAllowed := true
      , maxRolloverAmount := 10737418240
      , description := "20GB prepaid balance for data service with 10GB rollover" } ] }

/-- Catalog record `"1011"` (`src/tools/offers.py`, lines 211-258). -/
def offer1011 : Offer :=
  { offerId := "1011"
  , offerName := "Premium postpaid plan"
  , description := "Premium postpaid price plan with enhanced allowances for all services"
  , price := 24.99
  , type := "POSTPAID"
  , recurring := true
  , paid := true
  , groupOffer := false
  , maxRecurringCycles := none
  , cycleLength := 0
  , cycleUnit := "MONTH"
  , balances :=
    [ { type := "ALLOWANCE", amount := 180000, unit := "SECONDS", recurring := true
      , cycleLength := 1, cycleUnit := "MONTH", rolloverAllowed := true
      , maxRolloverAmount := 36000
      , description := "50 hours postpaid balance for voice service with 10 hours rollover" }
    , { type := "ALLOWANCE", amount := 10000, unit := "EVENTS", recurring := true
      , cycleLength := 1, cycleUnit := "MONTH", rolloverAllowed := true
      , maxRolloverAmount := 3000
      , description := "10000 events postpaid balance for SMS and MMS services with 3000 events rollover" }
    , { type := "ALLOWANCE", amount := 53687091200, unit := "BYTES", recurring := true
      , cycleLength := 1, cycleUnit := "MONTH", rolloverAllowed := true
      , maxRolloverAmount := 21474836480
      , description := "50GB postpaid balance for data service with 20GB rollover" } ] }

/-- Catalog record `"1020"` (`src/tools/offers.py`, lines 259-284). -/
def offer1020 : Offer :=
  { offerId := "1020"
  , offerName := "Weekly data bundle 10GB - Postpaid"
  , description := "Postpaid weekly data bundle – 10GB with rollover"
  , price := 6.99
  , type := "POSTPAID"
  , recurring := true
  , paid := true
  , groupOffer := false
  , maxRecurringCycles := none
  , cycleLength := 4
  , cycleUnit := "WEEK"
  , balances :=
    [ { type := "ALLOWANCE", amount := 10737418240, unit := "BYTES", recurring := true
      , cycleLength := 1, cycleUnit := "WEEK", rolloverAllowed := true
      , maxRolloverAmount := 10737418240
      , description := "Postpaid 10GB weekly balance with full rollover" } ] }

/-- Catalog record `"1021"` (`src/tools/offers.py`, lines 285-310). -/
def offer1021 : Offer :=
  { offerId := "1021"
  , offerName := "Monthly data bundle 50GB - Postpaid"
  , description := "Postpaid monthly data bundle – 50GB with rollover"
  , price := 19.99
  , type := "POSTPAID"
  , recurring := true
  , paid := true
  , groupOffer := false
  , maxRecurringCycles := none
  , cycleLength := 1
  , cycleUnit := "MONTH"
  , balances :=
    [ { type := "ALLOWANCE", amount := 53687091200, unit := "BYTES", recurring := true
      , cycleLength := 1, cycleUnit := "MONTH", rolloverAllowed := true
      , maxRolloverAmount := 26843545600
      , description := "Postpaid 50GB monthly balance with 25GB rollover" } ] }

/-- Catalog record `"1030"` (`src/tools/offers.py`, lines 311-336). -/
def offer1030 : Offer :=
  { offerId := "1030"
  , offerName := "Voice bundle 500 minutes - Postpaid"
  , description := "Additional 500 minutes voice bundle for postpaid subscribers"
  , price := 5.99
  , type := "POSTPAID"
  , recurring := true
  , paid := true
  , groupOffer := false
  , maxRecurringCycles := none
  , cycleLength := 1
  , cycleUnit := "MONTH"
  , balances :=
    [ { type := "ALLOWANCE", amount := 30000, unit := "SECONDS", recurring := true
      , cycleLength := 1, cycleUnit := "MONTH", rolloverAllowed := true
      , maxRolloverAmount := 15000
      , description := "500 minutes (30000 seconds) voice balance with 250 minutes rollover" } ] }

/-- Catalog record `"1031"` (`src/tools/offers.py`, lines 337-362). -/
def offer1031 : Offer :=
  { offerId := "1031"
  , offerName := "Voice bundle 1000 minutes - Postpaid"
  , description := "Additional 1000 minutes voice bundle for postpaid subscribers"
  , price := 9.99
  , type := "POSTPAID"
  , recurring := true
  , paid := true
  , groupOffer := false
  , maxRecurringCycles := none
  , cycleLength := 1
  , cycleUnit := "MONTH"
  , balances :=
    [ { type := "ALLOWANCE", amount := 60000, unit := "SECONDS", recurring := true
      , cycleLength := 1, cycleUnit := "MONTH", rolloverAllowed := true
      , maxRolloverAmount := 30000
      , description := "1000 minutes (60000 seconds) voice balance with 500 minutes rollover" } ] }

/-- Catalog record `"1040"` (`src/tools/offers.py`, lines 363-388). -/
def offer1040 : Offer :=
  { offerId := "1040"
  , offerName := "SMS/MMS bundle 1000 messages - Postpaid"
  , description := "Additional 1000 SMS/MMS messages bundle for postpaid subscribers"
  , price := 3.99
  , type := "POSTPAID"
  , recurring := true
  , paid := true
  , groupOffer := false
  , maxRecurringCycles := none
  , cycleLength := 1
  , cycleUnit := "MONTH"
  , balances :=
    [ { type := "ALLOWANCE", amount := 1000, unit := "EVENTS", recurring := true
      , cycleLength := 1, cycleUnit := "MONTH", rolloverAllowed := true
      , maxRolloverAmount := 500
      , description := "1000 SMS/MMS events balance with 500 messages rollover" } ] }

/-- Catalog record `"1041"` (`src/tools/offers.py`, lines 389-414). -/
def offer1041 : Offer :=
  { offerId := "1041"
  , offerName := "SMS/MMS bundle 2500 messages - Postpaid"
  , description := "Additional 2500 SMS/MMS messages bundle for postpaid subscribers"
  , price := 7.99
  , type := "POSTPAID"
  , recurring := true
  , paid := true
  , groupOffer := false
  , maxRecurringCycles := none
  , cycleLength := 1
  , cycleUnit := "MONTH"
  , balances :=
    [ { type := "ALLOWANCE", amount := 2500, unit := "EVENTS", recurring := true
      , cycleLength := 1, cycleUnit := "MONTH", rolloverAllowed := true
      , maxRolloverAmount := 1000
      , description := "2500 SMS/MMS events balance with 1000 messages rollover" } ] }

/-- `_get_offers_catalog` (`src/tools/offers.py`, lines 8-414): the complete
static catalog, in source order. -/
def _get_offers_catalog : List Offer :=
  [ offer1000, offer1001, offer1002, offer1003, offer1010, offer1011
  , offer1020, offer1021, offer1030, offer1031, offer1040, offer1041 ]

/-- Result of `get_offer_by_id` before JSON serialisation: the matching record,
or the not-found object with its `error`, `message` and `availableOfferIds`
fields. -/
inductive OfferLookupResult where
  | found (offer : Offer)
  | notFound (error : String) (message : String) (availableOfferIds : List String)
  deriving Repr, DecidableEq

/-- `get_offer_by_id` (`src/tools/offers.py`, lines 571-589): a linear scan of
the catalog by `offerId` (`next((o for o in offers if o["offerId"] == offerId),
None)`), falling back to the hard-coded not-found payload. -/
def get_offer_by_id (offerId : String) : OfferLookupResult :=
  match _get_offers_catalog.find? (fun o => o.offerId == offerId) with
  | some offer => .found offer
  | none =>
    .notFound "Offer not found" ("No offer found with offerId: " ++ offerId)
      [ "1000", "1001", "1002", "1003", "1010", "1011"
      , "1020", "1021", "1030", "1031", "1040", "1041" ]

/-! ## Helper lemmas -/

/-- Looking up the key written by `dictSet` yields the written value. -/
theorem lookup_dictSet (d : List (String × String)) (k v : String) :
    (dictSet d k v).lookup k = some v := by
  induction d with
  | nil => simp [dictSet, List.lookup]
  | cons p rest ih =>
    obtain ⟨k', v'⟩ := p
    by_cases h : k' = k
    · simp [dictSet, h, List.lookup]
    · simp only [dictSet, if_neg h, List.lookup]
      have : (k == k') = false := by simp [Ne.symm h]
      rw [this]
      exact ih

/-- A lookup result whose `ResultCode` is not the string `"Entity not found"`
fails the acceptance test of the uniqueness loop. -/
theorem msisdnAccepted_eq_false_of_ne (l : List (String × JVal))
    (h : dictGet l "ResultCode" ≠ some (.jstr "Entity not found")) :
    msisdnAccepted l = false := by
  unfold msisdnAccepted
  cases hv : dictGet l "ResultCode" with
  | none => rfl
  | some v =>
    cases v with
    | jstr s =>
      have hs : s ≠ "Entity not found" := fun hs => h (by rw [hv, hs])
      simp [hs]
    | jnull => rfl
    | jbool b => rfl
    | jnum n => rfl
    | jarr elems => rfl
    | jobj fields => rfl

/-- If the acceptance test passes at the current attempt, the loop stops after
this single lookup. -/
theorem msisdnSearch_first_accept (randoms : Nat → Nat)
    (lookups : Nat → List (String × JVal)) (attempt fuel : Nat)
    (h : msisdnAccepted (lookups attempt) = true) :
    msisdnSearch randoms lookups attempt (fuel + 1)
      = (some (candidateMsisdn (randoms attempt)), 1) := by
  simp [msisdnSearch, h]

/-- If every attempt in range fails the acceptance test, the loop exhausts its
fuel, makes one lookup per iteration, and accepts nothing. -/
theorem msisdnSearch_all_reject (randoms : Nat → Nat)
    (lookups : Nat → List (String × JVal)) (attempt fuel : Nat)
    (h : ∀ i, attempt ≤ i → i < attempt + fuel → msisdnAccepted (lookups i) = false) :
    msisdnSearch randoms lookups attempt fuel = (none, fuel) := by
  induction fuel generalizing attempt with
  | zero => simp [msisdnSearch]
  | succ n ih =>
    have hc : msisdnAccepted (lookups attempt) = false := h attempt le_rfl (by omega)
    have hr := ih (attempt + 1) (fun i h1 h2 => h i (by omega) (by omega))
    simp [msisdnSearch, hc, hr]

/-! ## Claim theorems -/

/-- C4: every network-level transport failure (`httpx.RequestError`: DNS,
connection refused, timeout) makes the client wrapper raise a structured error
whose status code is 503 and whose message carries the underlying cause text;
the equation pins the status to 503, so such a failure is never surfaced under
any other status code. -/
theorem request_network_failure_503 (transaction_id : Option String)
    (freshUuid : String) (headers : List (String × String)) (cause : String) :
    (OCSClient.request transaction_id freshUuid headers (.requestError cause)).result
      = .error ⟨503, .jstr ("Service Unavailable: " ++ cause), none⟩ := rfl

/-- C5 counterexample: `delete_subscription` applied to a `None` wrapper body
returns `None` itself — not a string at all, hence not a literal confirmation
string; `delete_balances` behaves the same way. -/
theorem delete_subscription_none_stays_none :
    delete_subscription none = ToolValue.jsonValue none ∧
    (delete_subscription none).isString = false ∧
    delete_balances none = ToolValue.jsonValue none ∧
    (delete_balances none).isString = false :=
  ⟨rfl, rfl, rfl, rfl⟩

/-- C5 (amended): every delete tool delegates to the client wrapper;
`delete_subscriber` discards the wrapper's result and returns the literal
confirmation string, while `delete_subscription` and `delete_balances` return
the wrapper's result unchanged, so a `None` body stays `None`. -/
theorem delete_tools_return_values (subscriber_id : String) (r : Option JVal) :
    delete_subscriber subscriber_id r
      = .strValue ("Subscriber " ++ subscriber_id ++ " deleted successfully") ∧
    delete_subscription r = .jsonValue r ∧
    delete_balances r = .jsonValue r :=
  ⟨rfl, rfl, rfl⟩

/-- C6: an upstream 204 response makes the wrapper return no value (`none`,
which is distinct from an empty JSON object), and any other 2xx/3xx response
whose body parses as JSON makes it return the parsed body. -/
theorem request_success_results (transaction_id : Option String) (freshUuid : String)
    (headers : List (String × String)) (r204 rok : HttpResponse) (j : JVal)
    (h204 : r204.status_code = 204)
    (hlo : 200 ≤ rok.status_code) (hhi : rok.status_code < 400)
    (hne : rok.status_code ≠ 204) (hbody : rok.body = some j) :
    (OCSClient.request transaction_id freshUuid headers (.ok r204)).result = .ok none ∧
    (OCSClient.request transaction_id freshUuid headers (.ok rok)).result = .ok (some j) := by
  constructor
  · simp [OCSClient.request, h204]
  · have hn : ¬ 400 ≤ rok.status_code := by omega
    simp [OCSClient.request, hn, hne, hbody]

/-- C6 witness: the theorem instantiated at a concrete 204 response and a
concrete 200 response carrying a JSON body. -/
theorem request_success_results_witness :
    (204 : Nat) = 204 ∧ (200 : Nat) ≤ 200 ∧ (200 : Nat) < 400 ∧ (200 : Nat) ≠ 204 ∧
    (OCSClient.request none "uuid-6" []
        (.ok ⟨204, none, "", "", "No Content"⟩)).result = .ok none ∧
    (OCSClient.request none "uuid-6" []
        (.ok ⟨200, some (.jstr "pong"), "", "pong", "OK"⟩)).result = .ok (some (.jstr "pong")) := by
  refine ⟨rfl, by decide, by decide, by decide, ?_, ?_⟩ <;>
  · have := request_success_results none "uuid-6" []
      ⟨204, none, "", "", "No Content"⟩ ⟨200, some (.jstr "pong"), "", "pong", "OK"⟩
      (.jstr "pong") rfl (by decide) (by decide) (by decide) rfl
    first
    | exact this.1
    | exact this.2

/-- C7: for every state string outside the valid subscriber-state enumeration,
`change_subscriber_state` returns the inline error object naming the valid
enum values — it does not raise and does not reach the client wrapper. -/
theorem change_subscriber_state_invalid (subscriber_id state : String)
    (h : state ∉ valid_states) :
    change_subscriber_state subscriber_id state =
      .inlineError [("error", .jstr ("Invalid state \x27" ++ state ++ "\x27. Must be one of: "
        ++ "ACTIVE, SUSPENDED, DEACTIVATED, TERMINATED, PRE_PROVISIONED"))] := by
  simp only [change_subscriber_state, if_pos h]
  rfl

/-- C7 witness: the theorem applied to the invalid state `"INVALID"`. -/
theorem change_subscriber_state_invalid_witness :
    "INVALID" ∉ valid_states ∧
    change_subscriber_state "SUB-1" "INVALID" =
      .inlineError [("error", .jstr ("Invalid state \x27" ++ "INVALID" ++ "\x27. Must be one of: "
        ++ "ACTIVE, SUSPENDED, DEACTIVATED, TERMINATED, PRE_PROVISIONED"))] :=
  ⟨by decide, change_subscriber_state_invalid "SUB-1" "INVALID" (by decide)⟩

/-- C9: `get_offer_by_id "1000"` returns the exact first catalog record, whose
`offerName` is `"Basic prepaid plan"` and whose `balances` are exactly the
three entries (SECONDS, 3600), (EVENTS, 1000), (BYTES, 10737418240). -/
theorem get_offer_1000_basic_prepaid :
    get_offer_by_id "1000" = .found offer1000 ∧
    offer1000 ∈ _get_offers_catalog ∧
    offer1000.offerName = "Basic prepaid plan" ∧
    offer1000.balances.map (fun b => (b.unit, b.amount))
      = [("SECONDS", 3600), ("EVENTS", 1000), ("BYTES", 10737418240)] :=
  ⟨rfl, List.mem_cons_self _ _, rfl, rfl⟩

/-- C10: the client wrapper treats a caller-supplied empty-string transaction
id like a missing one: the tool layer substitutes a fresh id only for `None`
(so the empty string reaches the wrapper), and the wrapper then replaces it by
its freshly generated UUID on the outgoing `X-Transaction-ID` header, exactly
as it does when no id arrives at all. -/
theorem wrapper_replaces_empty_transaction_id (freshTool freshWrapper : String)
    (headers : List (String × String)) (outcome : TransportResult) :
    toolTransactionId (some "") freshTool = "" ∧
    (OCSClient.request (some (toolTransactionId (some "") freshTool)) freshWrapper headers
        outcome).sentHeaders.lookup "X-Transaction-ID" = some freshWrapper ∧
    (OCSClient.request (some "") freshWrapper headers outcome).sentHeaders
      = (OCSClient.request none freshWrapper headers outcome).sentHeaders := by
  refine ⟨rfl, ?_, rfl⟩
  show (dictSet headers "X-Transaction-ID" freshWrapper).lookup "X-Transaction-ID"
    = some freshWrapper
  exact lookup_dictSet headers _ _

/-- C2: in `create_subscriber`'s MSISDN-uniqueness loop, a first lookup that
reports `ResultCode = "Entity not found"` lets the function proceed to the
creation request after exactly one lookup call; lookups that never report
`"Entity not found"` make the function raise after exactly `max_attempts = 10`
lookup calls, with no creation request issued. -/
theorem create_subscriber_uniqueness_loop (randoms : Nat → Nat)
    (lookupsFirstFree lookupsAllTaken : Nat → List (String × JVal))
    (h1 : dictGet (lookupsFirstFree 0) "ResultCode" = some (.jstr "Entity not found"))
    (h2 : ∀ i, i < max_attempts →
      dictGet (lookupsAllTaken i) "ResultCode" ≠ some (.jstr "Entity not found")) :
    create_subscriber_run randoms lookupsFirstFree
      = .creation (candidateMsisdn (randoms 0)) 1 ∧
    create_subscriber_run randoms lookupsAllTaken = .failure max_attempts ∧
    max_attempts = 10 := by
  refine ⟨?_, ?_, rfl⟩
  · have hacc : msisdnAccepted (lookupsFirstFree 0) = true := by
      simp [msisdnAccepted, h1]
    unfold create_subscriber_run
    rw [show max_attempts = 9 + 1 from rfl,
      msisdnSearch_first_accept randoms lookupsFirstFree 0 9 hacc]
  · have hall : ∀ i, 0 ≤ i → i < 0 + max_attempts → msisdnAccepted (lookupsAllTaken i) = false :=
      fun i _ hi => msisdnAccepted_eq_false_of_ne _ (h2 i (by omega))
    unfold create_subscriber_run
    rw [msisdnSearch_all_reject randoms lookupsAllTaken 0 max_attempts hall]

/-- C2 witness: the theorem applied to a lookup stream that reports
`"Entity not found"` immediately, and to one that always reports an existing
subscriber. -/
theorem create_subscriber_uniqueness_loop_witness :
    dictGet [("ResultCode", JVal.jstr "Entity not found")] "ResultCode"
      = some (.jstr "Entity not found") ∧
    (∀ i, i < max_attempts →
      dictGet [("subscriberId", JVal.jstr "SUB-7")] "ResultCode"
        ≠ some (JVal.jstr "Entity not found")) ∧
    create_subscriber_run (fun _ => 1234567)
        (fun _ => [("ResultCode", JVal.jstr "Entity not found")])
      = .creation (candidateMsisdn 1234567) 1 ∧
    create_subscriber_run (fun _ => 1234567) (fun _ => [("subscriberId", JVal.jstr "SUB-7")])
      = .failure max_attempts := by
  have h2 : ∀ i, i < max_attempts →
      dictGet ((fun _ => [("subscriberId", JVal.jstr "SUB-7")]) i) "ResultCode"
        ≠ some (JVal.jstr "Entity not found") := by
    intro i _ h
    simp [dictGet] at h
  obtain ⟨a, b, -⟩ := create_subscriber_uniqueness_loop (fun _ => 1234567)
    (fun _ => [("ResultCode", JVal.jstr "Entity not found")])
    (fun _ => [("subscriberId", JVal.jstr "SUB-7")]) rfl h2
  exact ⟨rfl, h2, a, b⟩

/-- C3 counterexample: a caller-supplied correlation id equal to the empty
string is not forwarded unchanged — the outgoing `X-Transaction-ID` header
carries the freshly generated UUID instead. -/
theorem supplied_empty_transaction_id_not_forwarded :
    (OCSClient.request (some "") "generated-uuid" []
        (.ok ⟨200, some .jnull, "", "null", "OK"⟩)).sentHeaders
      = [("X-Transaction-ID", "generated-uuid")] ∧
    "generated-uuid" ≠ "" :=
  ⟨rfl, by decide⟩

/-- C3 (amended): with no caller-supplied correlation id the wrapper attaches a
freshly generated id to the outgoing `X-Transaction-ID` header; a non-empty
caller-supplied id is forwarded unchanged (an empty-string id is treated as
missing and replaced). -/
theorem request_transaction_id_header (freshUuid t : String)
    (headers : List (String × String)) (outcome : TransportResult) (ht : t ≠ "") :
    (OCSClient.request none freshUuid headers outcome).sentHeaders.lookup "X-Transaction-ID"
      = some freshUuid ∧
    (OCSClient.request (some t) freshUuid headers outcome).sentHeaders.lookup "X-Transaction-ID"
      = some t := by
  constructor
  · exact lookup_dictSet headers _ _
  · show (dictSet headers "X-Transaction-ID" (if t = "" then freshUuid else t)).lookup
        "X-Transaction-ID" = some t
    rw [if_neg ht]
    exact lookup_dictSet headers _ _

/-- C3 witness: the theorem applied to the supplied id `"tx-supplied"` and the
fresh id `"fresh-1"`. -/
theorem request_transaction_id_header_witness :
    ("tx-supplied" : String) ≠ "" ∧
    (OCSClient.request none "fresh-1" []
        (.ok ⟨204, none, "", "", "No Content"⟩)).sentHeaders.lookup "X-Transaction-ID"
      = some "fresh-1" ∧
    (OCSClient.request (some "tx-supplied") "fresh-1" []
        (.ok ⟨204, none, "", "", "No Content"⟩)).sentHeaders.lookup "X-Transaction-ID"
      = some "tx-supplied" :=
  ⟨by decide,
   (request_transaction_id_header "fresh-1" "tx-supplied" []
      (.ok ⟨204, none, "", "", "No Content"⟩) (by decide)).1,
   (request_transaction_id_header "fresh-1" "tx-supplied" []
      (.ok ⟨204, none, "", "", "No Content"⟩) (by decide)).2⟩

/-- The message the error branch of `OCSClient.request` computes for a ≥400
response (`src/client.py`, lines 52-60): the JSON body's `message` field when
the body parses as an object carrying one, the reason phrase when the object
lacks it, and otherwise the raw text with the reason phrase as last resort. -/
def upstreamErrorMessage (r : HttpResponse) : JVal :=
  match r.body with
  | some (.jobj fields) => (dictGet fields "message").getD (.jstr r.reason_phrase)
  | _ => .jstr (if r.text = "" then r.reason_phrase else r.text)

/-- The `details` payload the error branch of `OCSClient.request` computes for
a ≥400 response (`src/client.py`, lines 56, 60). -/
def upstreamErrorDetails (r : HttpResponse) : Option JVal :=
  match r.body with
  | some (.jobj fields) => pyOptGet fields "details"
  | _ => none

/-- C1 counterexample: a 400 response whose JSON body is an object without a
`message` field yields an error message equal to the status reason phrase
(`"Bad Request"`), not the raw response text — refuting the claim's "otherwise
equals the raw response text". -/
theorem error_message_not_raw_text_for_object_body :
    (OCSClient.request none "uuid-1" []
        (.ok ⟨400, some (.jobj [("code", .jnum 1)]), "",
              "\x7b\x22code\x22: 1\x7d", "Bad Request"⟩)).result
      = .error ⟨400, .jstr "Bad Request", none⟩ ∧
    JVal.jstr "Bad Request" ≠ JVal.jstr "\x7b\x22code\x22: 1\x7d" :=
  ⟨rfl, by simp⟩

/-- C1 (amended): every ≥400 upstream response makes the wrapper raise an
error whose status code equals the upstream status and whose message is the
JSON body's `message` field when the body parses as an object containing one;
when the object lacks a `message` field the message is the status reason
phrase; when the body is not a JSON object the message is the raw response
text, or the reason phrase if that text is empty. -/
theorem request_upstream_error (transaction_id : Option String) (freshUuid : String)
    (headers : List (String × String)) (r : HttpResponse) (h : 400 ≤ r.status_code) :
    (OCSClient.request transaction_id freshUuid headers (.ok r)).result
      = .error ⟨r.status_code, upstreamErrorMessage r, upstreamErrorDetails r⟩ := by
  simp only [OCSClient.request, upstreamErrorMessage, upstreamErrorDetails, h, if_true]
  cases hb : r.body with
  | none => rfl
  | some v => cases v <;> rfl

/-- C1 witness: the amended theorem applied to a 404 response whose JSON body
carries a `message` field. -/
theorem request_upstream_error_witness :
    (400 : Nat) ≤ 404 ∧
    (OCSClient.request none "uuid-2" []
        (.ok ⟨404, some (.jobj [("message", .jstr "Entity not found")]), "",
              "body text", "Not Found"⟩)).result
      = .error ⟨404, .jstr "Entity not found", none⟩ :=
  ⟨by decide,
   request_upstream_error none "uuid-2" []
     ⟨404, some (.jobj [("message", .jstr "Entity not found")]), "", "body text", "Not Found"⟩
     (by decide)⟩

/-- C8: `get_offer_by_id` is a linear scan of the static catalog: an id absent
from the catalog yields the structured not-found payload whose `error` field is
`"Offer not found"` and whose `availableOfferIds` enumerate exactly the
catalog's offer ids, while an id present yields the matching catalog record. -/
theorem get_offer_by_id_lookup (offerId : String) :
    (offerId ∉ _get_offers_catalog.map Offer.offerId →
      get_offer_by_id offerId =
        .notFound "Offer not found" ("No offer found with offerId: " ++ offerId)
          (_get_offers_catalog.map Offer.offerId)) ∧
    (∀ o ∈ _get_offers_catalog, o.offerId = offerId → get_offer_by_id offerId = .found o) := by
  constructor
  · intro h
    have hfind : _get_offers_catalog.find? (fun o => o.offerId == offerId) = none := by
      rw [List.find?_eq_none]
      intro o ho
      simp only [beq_iff_eq]
      exact fun he => h (List.mem_map.mpr ⟨o, ho, he⟩)
    unfold get_offer_by_id
    rw [hfind]
    rfl
  · intro o ho he
    subst he
    fin_cases ho <;> rfl

/-- C8 witness: the theorem applied to the absent id `"9999"` and the present
id `"1000"`. -/
theorem get_offer_by_id_lookup_witness :
    "9999" ∉ _get_offers_catalog.map Offer.offerId ∧
    get_offer_by_id "9999" =
      .notFound "Offer not found" ("No offer found with offerId: " ++ "9999")
        (_get_offers_catalog.map Offer.offerId) ∧
    get_offer_by_id "1000" = .found offer1000 :=
  ⟨by decide,
   (get_offer_by_id_lookup "9999").1 (by decide),
   (get_offer_by_id_lookup "1000").2 offer1000 (List.mem_cons_self _ _) rfl⟩
